import Mathlib

/-!
# Helpdesk — verification of the spec against the route/storage/websocket layers

Shallow embedding of the parts of the Helpdesk application that the claims
concern: the ticket data model, the storage operations of `MySQLStorage`
(tickets, conversations, meetings), the Express route handlers of
`createHelpdeskRoutes`, and the `WebSocketManager` fan-out logic.

Conventions of the embedding:
* The ticket table is a `List Ticket`; SQL `UPDATE ... WHERE id = ?` becomes a
  `List.map` that rewrites the rows with that id, and `SELECT ... WHERE id = ?`
  becomes `List.find?`.
* JavaScript nullable string fields become `Option String`; the JS truthiness
  test `!!s` on such a field is `truthyStr` (`null`/`undefined` and the empty
  string are falsy).
* A user's `department` session field is a string that the routes convert with
  `Number(...)`; we model it as `Option Nat`, `none` standing for a value that
  does not parse to a number (`undefined`, `'null'`), `some d` for a numeric
  string `d` (so `some 0` is the string `'0'`, which is truthy as a string but
  falsy once converted to the number `0` — the handlers below reproduce the
  source's checks at the exact spot where each conversion happens).
* HTTP status outcomes are small inductive result types; a handler returns its
  result together with the post-state of the table it writes.
-/

namespace Helpdesk

/-- The three user roles of `hrmsAuth` (`cms_user_type_id` 99 / 1 / other). -/
inductive Role
  | employee
  | admin
  | super_admin
deriving DecidableEq, Repr

/-- Ticket status enum of `updateStatusSchema` (`z.enum(['open', 'in_progress',
'resolved', 'closed'])`).  `open` is a Lean keyword, so the first constructor
is named `opened`. -/
inductive Status
  | opened
  | in_progress
  | resolved
  | closed
deriving DecidableEq, Repr

/-- The string stored in the `cms_com_status` column for each status value. -/
def statusToString : Status → String
  | Status.opened => "open"
  | Status.in_progress => "in_progress"
  | Status.resolved => "resolved"
  | Status.closed => "closed"

/-- `updateStatusSchema.parse`: accepts exactly the four enum strings. -/
def parseStatus (s : String) : Option Status :=
  if s = "open" then some Status.opened
  else if s = "in_progress" then some Status.in_progress
  else if s = "resolved" then some Status.resolved
  else if s = "closed" then some Status.closed
  else none

/-- An authenticated session user (`req.user` populated by `requireAuth`). -/
structure User where
  employee_id : String
  department : Option Nat
  role : Role
deriving DecidableEq, Repr

/-- A row of `cms_complaint_details` with the aliases used by the routes
(`id`, `ticket_number`, `department_id`, `assigned_to` = `cms_sys_l1_id`,
`created_by` = `cms_user_id`, ...). -/
structure Ticket where
  id : Nat
  ticket_number : String
  company_id : Nat
  department_id : Nat
  target_system_id : Nat
  description : String
  priority : String
  status : Status
  created_by : String
  assigned_to : Option String
deriving DecidableEq, Repr

/-- JS truthiness of a nullable string: `null`/`undefined` and `''` are falsy. -/
def truthyStr : Option String → Bool
  | none => false
  | some s => decide (s ≠ "")

/-- `getTicketById`: `SELECT ... WHERE t.cms_com_id = ?` (first matching row). -/
def findTicket (db : List Ticket) (id : Nat) : Option Ticket :=
  db.find? (fun t => decide (t.id = id))

/-- `MySQLStorage.updateTicketStatus`: `UPDATE cms_complaint_details SET
cms_com_status = ? WHERE cms_com_id = ?` — sets the status unconditionally,
regardless of the previous status. -/
def updateTicketStatus (db : List Ticket) (id : Nat) (s : Status) : List Ticket :=
  db.map (fun t => if t.id = id then { t with status := s } else t)

/-- The row rewrite of `MySQLStorage.assignTicket`: sets `cms_sys_l1_id` to the
assignee and resets `cms_com_status` to `'in_progress'` via
`CASE WHEN cms_com_status IN ('resolved', 'closed') THEN 'in_progress' ELSE
cms_com_status END`. -/
def assignTicket (t : Ticket) (assignedToId : String) : Ticket :=
  { t with
    assigned_to := some assignedToId,
    status :=
      if t.status = Status.resolved ∨ t.status = Status.closed then Status.in_progress
      else t.status }

/-- `MySQLStorage.assignTicket` applied to the table (`WHERE cms_com_id = ?`). -/
def assignTicketById (db : List Ticket) (id : Nat) (assignedToId : String) : List Ticket :=
  db.map (fun t => if t.id = id then assignTicket t assignedToId else t)

/-! ## The HTML-stripping sanitizer and the e-mail escaper -/

/-- Modelled from the spec: `sanitizeInput` in `sanitize.ts` delegates to the
third-party `xss` package (not part of this repository) with
`whiteList: {}` and `stripIgnoreTag: true`, i.e. an HTML-stripping sanitizer
that removes every tag.  We model the tag stripping: the `Bool` flag says
whether the scanner is inside a `<...>` tag. -/
def stripTagsAux : Bool → List Char → List Char
  | _, [] => []
  | false, '<' :: rest => stripTagsAux true rest
  | false, ch :: rest => ch :: stripTagsAux false rest
  | true, '>' :: rest => stripTagsAux false rest
  | true, _ :: rest => stripTagsAux true rest

/-- Modelled from the spec: the HTML-stripping sanitizer `sanitizeInput`
(see `stripTagsAux`). -/
def sanitizeInput (s : String) : String :=
  String.mk (stripTagsAux false s.toList)

/-- `escapeHtml` of the routes file.  The source chains five
`String.replace` calls (`&`, `<`, `>`, `"`, `\x27`); since none of the
replacement strings contains a character that a later replacement rewrites
(and `&` is replaced first), the chain is the same as this single per-character
map. -/
def escapeHtml (s : String) : String :=
  s.toList.foldr
    (fun c acc =>
      if c = '&' then "&amp;" ++ acc
      else if c = '<' then "&lt;" ++ acc
      else if c = '>' then "&gt;" ++ acc
      else if c = Char.ofNat 34 then "&quot;" ++ acc
      else if c = Char.ofNat 39 then "&#39;" ++ acc
      else String.singleton c ++ acc)
    ""

/-- JS `String.prototype.trim`: drop whitespace from both ends. -/
def jsTrim (s : String) : String :=
  String.mk
    (((s.toList.dropWhile Char.isWhitespace).reverse.dropWhile Char.isWhitespace).reverse)

/-! ## Ticket list and single-ticket routes -/

/-- The filter record accepted by `MySQLStorage.getTickets`. -/
structure TicketFilters where
  userId : Option String
  departmentId : Option Nat
  status : Option String
  priority : Option String
  search : Option String
deriving DecidableEq, Repr

/-- SQL `LIKE '%pat%'`: `pat` occurs as a substring. -/
def likeContains (hay pat : String) : Bool :=
  decide (pat.toList <:+: hay.toList)

/-- The `WHERE` clause assembled by `MySQLStorage.getTickets`.  Each filter is
guarded by a JS truthiness test (`if (filters?.departmentId)`, ...), so a
`departmentId` of `0` or an empty string filter adds no condition. -/
def ticketMatchesFilters (f : TicketFilters) (t : Ticket) : Bool :=
  (match f.userId with
   | some u => if u = "" then true else decide (t.created_by = u ∨ t.assigned_to = some u)
   | none => true) &&
  (match f.departmentId with
   | some d => if d = 0 then true else decide (t.department_id = d)
   | none => true) &&
  (match f.status with
   | some s => if s = "" then true else decide (statusToString t.status = s)
   | none => true) &&
  (match f.priority with
   | some p => if p = "" then true else decide (t.priority = p)
   | none => true) &&
  (match f.search with
   | some s => if s = "" then true else likeContains t.description s || likeContains t.ticket_number s
   | none => true)

/-- `MySQLStorage.getTickets`: filtered rows, then `LIMIT ? OFFSET ?`.
(The `ORDER BY cms_created_at DESC` is the ambient row order of the list.) -/
def getTickets (db : List Ticket) (f : TicketFilters) (limit offset : Nat) : List Ticket :=
  ((db.filter (ticketMatchesFilters f)).drop offset).take limit

/-- Query parameters of `GET /tickets`.  `department_id` is `some d` when the
query string carries a (truthy, i.e. non-empty) `department_id` parameter that
parses to `d`. -/
structure ListTicketsQuery where
  status : Option String
  department_id : Option Nat
  priority : Option String
  search : Option String
  limit : Option Nat
  offset : Option Nat
deriving Repr

/-- The handler of `GET /tickets`.  For a non-`super_admin` requester the
filter starts from the requester's own department (`if (depId)
filters.departmentId = depId`), but a `department_id` query parameter then
overwrites it (`if (department_id) filters.departmentId =
Number(department_id)`) — for every role.  `status`/`priority`/`search` query
values pass through `sanitizeInput`; `limit` is clamped to `[1, 100]` with
default `20`, `offset` defaults to `0`. -/
def getTicketsHandler (db : List Ticket) (user : User) (q : ListTicketsQuery) :
    List Ticket :=
  let baseDep : Option Nat :=
    if user.role = Role.super_admin then none
    else
      match user.department with
      | some d => if d = 0 then none else some d
      | none => none
  let depFilter : Option Nat :=
    match q.department_id with
    | some qd => some qd
    | none => baseDep
  let filters : TicketFilters :=
    { userId := none
      departmentId := depFilter
      status := q.status.map sanitizeInput
      priority := q.priority.map sanitizeInput
      search := q.search.map sanitizeInput }
  let limitNum : Nat :=
    match q.limit with
    | some l => max 1 (min 100 l)
    | none => 20
  let offsetNum : Nat :=
    match q.offset with
    | some o => o
    | none => 0
  getTickets db filters limitNum offsetNum

/-- Outcome of `GET /tickets/:id`. -/
inductive TicketViewResult
  | notFound
  | ok (t : Ticket)
deriving DecidableEq, Repr

/-- The handler of `GET /tickets/:id`.  The department/role access check that
the comment above it announces ("Only allow access if admin, super_admin, or
ticket is in user's department") is commented out in the source ("TEMP: Allow
all authenticated users to view tickets for debugging"), so the requester is
unused: every authenticated user gets every existing ticket. -/
def getTicketByIdHandler (db : List Ticket) (_requester : User) (id : Nat) :
    TicketViewResult :=
  match findTicket db id with
  | none => TicketViewResult.notFound
  | some t => TicketViewResult.ok t

/-! ## Status update, reassignment and accept routes -/

/-- Outcome of `PATCH /tickets/:id/status`. -/
inductive StatusUpdateResult
  | notFound
  | forbidden
  | ok
deriving DecidableEq, Repr

/-- The `canUpdate` predicate of `PATCH /tickets/:id/status`: admins and super
admins always; an employee only when the ticket's `department_id` equals
`Number(requester.department)` and the ticket is assigned to the requester or
JS-falsy-unassigned (`!(ticket).assigned_to`). -/
def canUpdateStatus (requester : User) (t : Ticket) : Bool :=
  decide (requester.role = Role.admin) ||
  decide (requester.role = Role.super_admin) ||
  (decide (requester.role = Role.employee) &&
    (match requester.department with
     | some d => decide (t.department_id = d)
     | none => false) &&
    (decide (t.assigned_to = some requester.employee_id) || !truthyStr t.assigned_to))

/-- The handler of `PATCH /tickets/:id/status` (body already validated by
`updateStatusSchema`, hence `s : Status`).  Returns the HTTP outcome and the
ticket table after the call. -/
def patchTicketStatusHandler (db : List Ticket) (requester : User) (id : Nat)
    (s : Status) : StatusUpdateResult × List Ticket :=
  match findTicket db id with
  | none => (StatusUpdateResult.notFound, db)
  | some t =>
    if canUpdateStatus requester t then
      (StatusUpdateResult.ok, updateTicketStatus db id s)
    else
      (StatusUpdateResult.forbidden, db)

/-- Outcome of `PATCH /tickets/:id/assign`. -/
inductive AssignResult
  | forbidden
  | notFound
  | ok
deriving DecidableEq, Repr

/-- The handler of `PATCH /tickets/:id/assign`: the role check
(`requester.role !== 'admin' && requester.role !== 'super_admin'` → 403) runs
before the not-found check, exactly as in the source. -/
def patchTicketAssignHandler (db : List Ticket) (requester : User) (id : Nat)
    (assigned_to : String) : AssignResult × List Ticket :=
  if ¬ (requester.role = Role.admin) ∧ ¬ (requester.role = Role.super_admin) then
    (AssignResult.forbidden, db)
  else
    match findTicket db id with
    | none => (AssignResult.notFound, db)
    | some _ => (AssignResult.ok, assignTicketById db id assigned_to)

/-- Outcome of `POST /tickets/:id/accept`. -/
inductive AcceptResult
  | notFound
  | conflict
  | ok
deriving DecidableEq, Repr

/-- The handler of `POST /tickets/:id/accept`: 404 when the ticket does not
exist, 409 (`'Ticket already accepted'`) when `(ticket).assigned_to` is
JS-truthy, otherwise `assignTicket(ticketId, req.user.employee_id)`. -/
def postTicketAcceptHandler (db : List Ticket) (requester : User) (id : Nat) :
    AcceptResult × List Ticket :=
  match findTicket db id with
  | none => (AcceptResult.notFound, db)
  | some t =>
    if truthyStr t.assigned_to then
      (AcceptResult.conflict, db)
    else
      (AcceptResult.ok, assignTicketById db id requester.employee_id)

/-! ## Ticket chat -/

/-- A row of the ticket-message table as written by
`MySQLStorage.createTicketMessage`. -/
structure TicketMessage where
  ticket_id : Nat
  sender_id : String
  message : String
deriving DecidableEq, Repr

/-- The authorization test of `POST /tickets/:id/messages`:
`isAdmin || (userDep && userDep === ticketDep) || user.employee_id ===
t.created_by || user.employee_id === (t).assigned_to`, where
`userDep = user.department ? Number(user.department) : undefined` and
`ticketDep = (t).department_id ? Number(...) : undefined` (so a department of
`0` never satisfies the middle clause). -/
def canPostTicketMessage (user : User) (t : Ticket) : Bool :=
  decide (user.role = Role.admin) || decide (user.role = Role.super_admin) ||
  (match user.department with
   | some d => decide (d ≠ 0) && decide (t.department_id = d)
   | none => false) ||
  decide (user.employee_id = t.created_by) ||
  decide (t.assigned_to = some user.employee_id)

/-- Outcome of `POST /tickets/:id/messages`. -/
inductive PostMessageResult
  | notFound
  | forbidden
  | created
deriving DecidableEq, Repr

/-- The handler of `POST /tickets/:id/messages`: the body passes through
`sanitizeInput` before the authorization check and persistence. -/
def postTicketMessageHandler (db : List Ticket) (msgs : List TicketMessage)
    (user : User) (id : Nat) (body : String) :
    PostMessageResult × List TicketMessage :=
  let message := sanitizeInput body
  match findTicket db id with
  | none => (PostMessageResult.notFound, msgs)
  | some t =>
    if canPostTicketMessage user t then
      (PostMessageResult.created,
        msgs ++ [{ ticket_id := id, sender_id := user.employee_id, message := message }])
    else
      (PostMessageResult.forbidden, msgs)

/-! ## Direct-message conversations -/

/-- A row of `cms_user_conversations` (see `ensureChatTables`: the member pair
carries a `UNIQUE KEY uniq_members (member_a_id, member_b_id)`). -/
structure Conversation where
  id : Nat
  member_a_id : String
  member_b_id : String
  dept_id : Option Nat
deriving DecidableEq, Repr

/-- The conversation table together with the `AUTO_INCREMENT` counter. -/
structure ConversationTable where
  rows : List Conversation
  nextId : Nat
deriving DecidableEq, Repr

/-- `MySQLStorage.getOrCreateConversation`'s member ordering:
`const [a, b] = currentUserId < otherUserId ? [currentUserId, otherUserId] :
[otherUserId, currentUserId]`. -/
def orderMembers (currentUserId otherUserId : String) : String × String :=
  if currentUserId < otherUserId then (currentUserId, otherUserId)
  else (otherUserId, currentUserId)

/-- `SELECT * FROM cms_user_conversations WHERE member_a_id = ? AND
member_b_id = ?`. -/
def findConversation (rows : List Conversation) (a b : String) : Option Conversation :=
  rows.find? (fun c => decide (c.member_a_id = a ∧ c.member_b_id = b))

/-- `MySQLStorage.getOrCreateConversation`: order the pair, return the existing
row if any, otherwise insert a fresh row for the ordered pair. -/
def getOrCreateConversation (st : ConversationTable) (currentUserId otherUserId : String)
    (deptId : Option Nat) : Conversation × ConversationTable :=
  let ab := orderMembers currentUserId otherUserId
  match findConversation st.rows ab.1 ab.2 with
  | some conv => (conv, st)
  | none =>
    let conv : Conversation :=
      { id := st.nextId, member_a_id := ab.1, member_b_id := ab.2, dept_id := deptId }
    (conv, { rows := st.rows ++ [conv], nextId := st.nextId + 1 })

/-- A row of `cms_user_conversation_messages` as written by
`MySQLStorage.addConversationMessage`. -/
structure ConversationMessage where
  conversation_id : Nat
  sender_id : String
  message : String
deriving DecidableEq, Repr

/-- `MySQLStorage.addConversationMessage`: a plain `INSERT` of the message
text it is given — no sanitization in the storage layer. -/
def addConversationMessage (msgs : List ConversationMessage) (conversationId : Nat)
    (senderId : String) (message : String) : List ConversationMessage :=
  msgs ++ [{ conversation_id := conversationId, sender_id := senderId, message := message }]

/-- Outcome of `POST /messages/conversations/:id`. -/
inductive ConvPostResult
  | badRequest
  | created
deriving DecidableEq, Repr

/-- The handler of `POST /messages/conversations/:id`: rejects a
whitespace-only body (`if (!text.trim())` → 400) and otherwise persists
`text.trim()` — the body never passes through `sanitizeInput`. -/
def postConversationMessageHandler (msgs : List ConversationMessage) (user : User)
    (convId : Nat) (body : String) : ConvPostResult × List ConversationMessage :=
  if jsTrim body = "" then (ConvPostResult.badRequest, msgs)
  else (ConvPostResult.created, addConversationMessage msgs convId user.employee_id (jsTrim body))

/-! ## Name-creating routes and ticket creation (sanitization call sites) -/

/-- The handler of `POST /companies`: 400 on a falsy name, else
`createCompany(sanitizeInput(name))`.  `none` models the 400 path; `some`
carries the table after the insert. -/
def postCompanyHandler (names : List String) (name : String) : Option (List String) :=
  if name = "" then none else some (names ++ [sanitizeInput name])

/-- The handler of `POST /departments`: 400 on a falsy name, else
`createDepartment(sanitizeInput(name))`. -/
def postDepartmentHandler (names : List String) (name : String) : Option (List String) :=
  if name = "" then none else some (names ++ [sanitizeInput name])

/-- The handler of `POST /target-systems`: 400 unless both `name` and
`department_id` are truthy, else `createTargetSystem(sanitizeInput(name),
department_id)`. -/
def postTargetSystemHandler (names : List (String × Nat)) (name : String)
    (departmentId : Nat) : Option (List (String × Nat)) :=
  if name = "" ∨ departmentId = 0 then none
  else some (names ++ [(sanitizeInput name, departmentId)])

/-- The free-text part of the body of `POST /tickets`. -/
structure CreateTicketBody where
  subject : String
  description : String
  priority : Option String
deriving DecidableEq, Repr

/-- The free-text part of the `normalized` object that `POST /tickets` builds
before `createTicketSchema.parse`: `subject: sanitizeInput(String(body.subject
?? ''))`, `description: sanitizeInput(String(body.description ?? ''))`,
`priority: String(body.priority ?? 'medium')`. -/
def normalizeCreateTicket (body : CreateTicketBody) : CreateTicketBody :=
  { subject := sanitizeInput body.subject
    description := sanitizeInput body.description
    priority := some (match body.priority with
      | some p => p
      | none => "medium") }

/-- The plain-text body that `POST /tickets` hands to
`sendAdminNotification`: `` `Ticket ${ticket.ticket_number} created in
department ${validatedData.department_id}\nPriority: ${validatedData.priority}
\nSubject: ${validatedData.subject}` `` — the interpolations are raw, not
HTML-escaped. -/
def newTicketAdminNotificationText (ticketNumber : String) (departmentId : Nat)
    (priority : String) (subject : String) : String :=
  "Ticket " ++ ticketNumber ++ " created in department " ++ toString departmentId ++
    "\nPriority: " ++ priority ++ "\nSubject: " ++ subject

/-! ## Meetings -/

/-- The free-text part of the body of `POST /meetings`. -/
structure MeetingBody where
  title : String
  date : String
  time : String
  description : Option String
deriving DecidableEq, Repr

/-- A row of `cms_meetings` as written by `MySQLStorage.createMeeting`. -/
structure Meeting where
  id : Nat
  title : String
  date : String
  time : String
  description : Option String
  created_by : String
deriving DecidableEq, Repr

/-- The persistence part of the handler of `POST /meetings`: 400 unless
`title`, `date` and `time` are truthy; `description: description || null`
(so the empty string becomes `NULL`); `title` and `description` are stored
exactly as submitted — no `sanitizeInput`. -/
def postMeetingHandler (meetings : List Meeting) (nextId : Nat) (user : User)
    (body : MeetingBody) : Option (List Meeting) :=
  if body.title = "" ∨ body.date = "" ∨ body.time = "" then none
  else
    some (meetings ++
      [{ id := nextId
         title := body.title
         date := body.date
         time := body.time
         description :=
           match body.description with
           | some d => if d = "" then none else some d
           | none => none
         created_by := user.employee_id }])

/-! ## WebSocket fan-out -/

/-- `ClientConnection` of `WebSocketManager`: the tracked user id, the
currently subscribed ticket id (set by `join_ticket` / cleared by
`leave_ticket`), and whether `ws.readyState === WebSocket.OPEN`. -/
structure ClientConnection where
  userId : String
  ticketId : Option Nat
  isOpen : Bool
deriving DecidableEq, Repr

/-- The connections that `broadcastTicketMessage(ticketId, _)` sends to:
`Array.from(this.clients.values()).filter(client => client.ticketId ===
ticketId)`, each guarded by `readyState === OPEN` at send time. -/
def broadcastTicketMessageRecipients (clients : List ClientConnection)
    (ticketId : Nat) : List ClientConnection :=
  (clients.filter (fun c => decide (c.ticketId = some ticketId))).filter
    (fun c => c.isOpen)

/-- The connections that `broadcastTicketUpdate(ticketId, _)` sends to — the
same selection as `broadcastTicketMessage`. -/
def broadcastTicketUpdateRecipients (clients : List ClientConnection)
    (ticketId : Nat) : List ClientConnection :=
  (clients.filter (fun c => decide (c.ticketId = some ticketId))).filter
    (fun c => c.isOpen)

/-- The connections that `notifyUser(userId, _)` sends to:
`filter(client => client.userId === userId)`, each guarded by
`readyState === OPEN` — the ticket subscription is not consulted. -/
def notifyUserRecipients (clients : List ClientConnection) (userId : String) :
    List ClientConnection :=
  (clients.filter (fun c => decide (c.userId = userId))).filter
    (fun c => c.isOpen)

/-! ## Helper lemmas -/

/-- The status of the ticket with a given id, as read back by
`getTicketById`. -/
def statusInDb (db : List Ticket) (id : Nat) : Option Status :=
  (findTicket db id).map Ticket.status

/-- The assignee of the ticket with a given id, as read back by
`getTicketById`. -/
def assigneeInDb (db : List Ticket) (id : Nat) : Option (Option String) :=
  (findTicket db id).map Ticket.assigned_to

theorem findTicket_map_rewrite (db : List Ticket) (id : Nat) (f : Ticket → Ticket)
    (hf : ∀ t, (f t).id = t.id) :
    findTicket (db.map (fun t => if t.id = id then f t else t)) id =
      (findTicket db id).map f := by
  induction db with
  | nil => rfl
  | cons a l ih =>
    by_cases h : a.id = id
    · simp [findTicket, List.find?, h, hf a]
    · simpa [findTicket, List.find?, h] using ih

theorem findTicket_updateTicketStatus (db : List Ticket) (id : Nat) (s : Status) :
    findTicket (updateTicketStatus db id s) id =
      (findTicket db id).map (fun t => { t with status := s }) :=
  findTicket_map_rewrite db id (fun t => { t with status := s }) (fun _ => rfl)

theorem findTicket_assignTicketById (db : List Ticket) (id : Nat) (a : String) :
    findTicket (assignTicketById db id a) id =
      (findTicket db id).map (fun t => assignTicket t a) :=
  findTicket_map_rewrite db id (fun t => assignTicket t a) (fun _ => rfl)

theorem statusInDb_updateTicketStatus (db : List Ticket) (id : Nat) (s : Status)
    (t : Ticket) (h : findTicket db id = some t) :
    statusInDb (updateTicketStatus db id s) id = some s := by
  rw [statusInDb, findTicket_updateTicketStatus, h]
  rfl

theorem assigneeInDb_assignTicketById (db : List Ticket) (id : Nat) (a : String)
    (t : Ticket) (h : findTicket db id = some t) :
    assigneeInDb (assignTicketById db id a) id = some (some a) := by
  rw [assigneeInDb, findTicket_assignTicketById, h]
  rfl

/-! ## Claim theorems -/

/-- C10: the storage-level `assignTicket` modifies only the ticket's assignee
field and, conditionally, its status: a `resolved`/`closed` status becomes
`in_progress` and any other status is unchanged; every other field of the
ticket is unchanged. -/
theorem assignTicket_frame (t : Ticket) (a : String) :
    (assignTicket t a).assigned_to = some a ∧
    ((t.status = Status.resolved ∨ t.status = Status.closed) →
      (assignTicket t a).status = Status.in_progress) ∧
    (¬ (t.status = Status.resolved ∨ t.status = Status.closed) →
      (assignTicket t a).status = t.status) ∧
    (assignTicket t a).id = t.id ∧
    (assignTicket t a).ticket_number = t.ticket_number ∧
    (assignTicket t a).company_id = t.company_id ∧
    (assignTicket t a).department_id = t.department_id ∧
    (assignTicket t a).target_system_id = t.target_system_id ∧
    (assignTicket t a).description = t.description ∧
    (assignTicket t a).priority = t.priority ∧
    (assignTicket t a).created_by = t.created_by := by
  refine ⟨rfl, fun h => ?_, fun h => ?_, rfl, rfl, rfl, rfl, rfl, rfl, rfl, rfl⟩
  · simp [assignTicket, h]
  · simp [assignTicket, h]

/-- Witness for C10: assigning a `resolved` ticket re-opens it to
`in_progress` and sets the assignee. -/
theorem assignTicket_frame_witness :
    (assignTicket
        ⟨5, "T5", 1, 2, 1, "printer broken", "low", Status.resolved, "u9", none⟩
        "e1").assigned_to = some "e1" ∧
    (assignTicket
        ⟨5, "T5", 1, 2, 1, "printer broken", "low", Status.resolved, "u9", none⟩
        "e1").status = Status.in_progress :=
  ⟨(assignTicket_frame
      ⟨5, "T5", 1, 2, 1, "printer broken", "low", Status.resolved, "u9", none⟩
      "e1").1,
    (assignTicket_frame
      ⟨5, "T5", 1, 2, 1, "printer broken", "low", Status.resolved, "u9", none⟩
      "e1").2.1 (Or.inl rfl)⟩

/-- C7: `broadcastTicketMessage`/`broadcastTicketUpdate` send exactly to the
open connections whose tracked subscribed ticket id equals the broadcast
ticket id, and `notifyUser` sends to every open connection of the user
regardless of its ticket subscription. -/
theorem websocket_fanout (clients : List ClientConnection) (tid : Nat)
    (uid : String) (c : ClientConnection) :
    (c ∈ broadcastTicketMessageRecipients clients tid ↔
      c ∈ clients ∧ c.ticketId = some tid ∧ c.isOpen = true) ∧
    (c ∈ broadcastTicketUpdateRecipients clients tid ↔
      c ∈ clients ∧ c.ticketId = some tid ∧ c.isOpen = true) ∧
    (c ∈ notifyUserRecipients clients uid ↔
      c ∈ clients ∧ c.userId = uid ∧ c.isOpen = true) := by
  simp only [broadcastTicketMessageRecipients, broadcastTicketUpdateRecipients,
    notifyUserRecipients, List.mem_filter, decide_eq_true_eq]
  tauto

/-- C1: the source's own comment announces "Only allow access if admin,
super_admin, or ticket is in user's department", but the check is commented
out ("TEMP: Allow all authenticated users to view tickets for debugging"), so
`GET /tickets/:id` hands a department-2 ticket to a department-1 employee; and
in `GET /tickets` the `department_id` query parameter overwrites the
department scoping for every role, so the same employee lists the
department-2 ticket by passing `department_id=2`. -/
theorem ticket_visibility_not_enforced :
    getTicketByIdHandler
        [⟨5, "T5", 1, 2, 1, "printer broken", "low", Status.opened, "u9", none⟩]
        ⟨"e1", some 1, Role.employee⟩ 5 =
      TicketViewResult.ok
        ⟨5, "T5", 1, 2, 1, "printer broken", "low", Status.opened, "u9", none⟩ ∧
    getTicketsHandler
        [⟨5, "T5", 1, 2, 1, "printer broken", "low", Status.opened, "u9", none⟩]
        ⟨"e1", some 1, Role.employee⟩
        ⟨none, some 2, none, none, none, none⟩ =
      [⟨5, "T5", 1, 2, 1, "printer broken", "low", Status.opened, "u9", none⟩] := by
  decide

/-- C2 (counterexample): `POST /messages/conversations/:id` persists the
direct-message text `" <b>hi</b> "` merely trimmed, not equal to the
sanitizer's output; and the plain-text admin-notification email body
interpolates the ticket subject `"<x>"` raw, not HTML-escaped. -/
theorem free_text_not_always_sanitized :
    (postConversationMessageHandler [] ⟨"u1", some 1, Role.employee⟩ 7 " <b>hi</b> ").2 =
      [⟨7, "u1", "<b>hi</b>"⟩] ∧
    sanitizeInput " <b>hi</b> " = " hi " ∧
    ("<b>hi</b>" : String) ≠ sanitizeInput " <b>hi</b> " ∧
    newTicketAdminNotificationText "T5" 2 "low" "<x>" =
      "Ticket T5 created in department 2\nPriority: low\nSubject: <x>" ∧
    escapeHtml "<x>" = "&lt;x&gt;" := by
  decide

theorem canUpdateStatus_admin (u : User) (t : Ticket)
    (h : u.role = Role.admin ∨ u.role = Role.super_admin) :
    canUpdateStatus u t = true := by
  rcases h with h | h <;> simp [canUpdateStatus, h]

theorem canUpdateStatus_employee (u : User) (t : Ticket)
    (hrole : u.role = Role.employee) (hne : t.assigned_to ≠ some "") :
    canUpdateStatus u t = true ↔
      (u.department = some t.department_id ∧
        (t.assigned_to = none ∨ t.assigned_to = some u.employee_id)) := by
  cases hdep : u.department with
  | none => simp [canUpdateStatus, hrole, hdep]
  | some d =>
    by_cases hd : t.department_id = d
    · subst hd
      cases hass : t.assigned_to with
      | none => simp [canUpdateStatus, hrole, hdep, hass, truthyStr]
      | some x =>
        have hx : x ≠ "" := fun hx => hne (by rw [hass, hx])
        by_cases hxe : x = u.employee_id
        · subst hxe
          simp [canUpdateStatus, hrole, hdep, hass, truthyStr, hx]
        · simp [canUpdateStatus, hrole, hdep, hass, truthyStr, hx, hxe]
    · have hd2 : ¬ d = t.department_id := fun h => hd h.symm
      simp [canUpdateStatus, hrole, hdep, hd, hd2]

/-- C3: an admin or super_admin may set the status of any existing ticket; an
employee's `PATCH /tickets/:id/status` succeeds and changes the ticket's
status exactly when the ticket's department equals the requester's department
and the ticket is unassigned or assigned to the requester, and otherwise
fails with 403 leaving the table unchanged. -/
theorem status_update_authorization (db : List Ticket) (u : User) (id : Nat)
    (s : Status) (t : Ticket) (hfind : findTicket db id = some t)
    (hne : t.assigned_to ≠ some "") :
    ((u.role = Role.admin ∨ u.role = Role.super_admin) →
      (patchTicketStatusHandler db u id s).1 = StatusUpdateResult.ok ∧
      statusInDb (patchTicketStatusHandler db u id s).2 id = some s) ∧
    (u.role = Role.employee →
      ((u.department = some t.department_id ∧
          (t.assigned_to = none ∨ t.assigned_to = some u.employee_id)) →
        (patchTicketStatusHandler db u id s).1 = StatusUpdateResult.ok ∧
        statusInDb (patchTicketStatusHandler db u id s).2 id = some s) ∧
      (¬ (u.department = some t.department_id ∧
          (t.assigned_to = none ∨ t.assigned_to = some u.employee_id)) →
        (patchTicketStatusHandler db u id s).1 = StatusUpdateResult.forbidden ∧
        (patchTicketStatusHandler db u id s).2 = db)) := by
  refine ⟨fun hadm => ?_, fun hrole => ⟨fun hcond => ?_, fun hcond => ?_⟩⟩
  · have hcan := canUpdateStatus_admin u t hadm
    constructor
    · simp [patchTicketStatusHandler, hfind, hcan]
    · have : (patchTicketStatusHandler db u id s).2 = updateTicketStatus db id s := by
        simp [patchTicketStatusHandler, hfind, hcan]
      rw [this]
      exact statusInDb_updateTicketStatus db id s t hfind
  · have hcan : canUpdateStatus u t = true :=
      (canUpdateStatus_employee u t hrole hne).mpr hcond
    constructor
    · simp [patchTicketStatusHandler, hfind, hcan]
    · have : (patchTicketStatusHandler db u id s).2 = updateTicketStatus db id s := by
        simp [patchTicketStatusHandler, hfind, hcan]
      rw [this]
      exact statusInDb_updateTicketStatus db id s t hfind
  · have hcan : canUpdateStatus u t = false := by
      cases h : canUpdateStatus u t with
      | false => rfl
      | true => exact absurd ((canUpdateStatus_employee u t hrole hne).mp h) hcond
    constructor
    · simp [patchTicketStatusHandler, hfind, hcan]
    · simp [patchTicketStatusHandler, hfind, hcan]

/-- Witness for C3: a department-2 employee updates an unassigned department-2
ticket to `closed`. -/
theorem status_update_authorization_witness :
    (patchTicketStatusHandler
        [⟨5, "T5", 1, 2, 1, "printer broken", "low", Status.opened, "u9", none⟩]
        ⟨"e1", some 2, Role.employee⟩ 5 Status.closed).1 = StatusUpdateResult.ok ∧
    statusInDb
        (patchTicketStatusHandler
          [⟨5, "T5", 1, 2, 1, "printer broken", "low", Status.opened, "u9", none⟩]
          ⟨"e1", some 2, Role.employee⟩ 5 Status.closed).2 5 = some Status.closed :=
  (((status_update_authorization
      [⟨5, "T5", 1, 2, 1, "printer broken", "low", Status.opened, "u9", none⟩]
      ⟨"e1", some 2, Role.employee⟩ 5 Status.closed
      ⟨5, "T5", 1, 2, 1, "printer broken", "low", Status.opened, "u9", none⟩
      (by decide) (by decide)).2 rfl).1 (by exact ⟨rfl, Or.inl rfl⟩))

/-- C4: `PATCH /tickets/:id/assign` on an existing ticket changes the stored
assignee exactly when the requester is an admin or super_admin; an employee
gets 403 and the table is unchanged. -/
theorem reassignment_admin_only (db : List Ticket) (u : User) (id : Nat)
    (a : String) (t : Ticket) (hfind : findTicket db id = some t) :
    ((u.role = Role.admin ∨ u.role = Role.super_admin) →
      (patchTicketAssignHandler db u id a).1 = AssignResult.ok ∧
      assigneeInDb (patchTicketAssignHandler db u id a).2 id = some (some a)) ∧
    (u.role = Role.employee →
      (patchTicketAssignHandler db u id a).1 = AssignResult.forbidden ∧
      (patchTicketAssignHandler db u id a).2 = db) := by
  constructor
  · intro hadm
    have hcond : ¬ (¬ (u.role = Role.admin) ∧ ¬ (u.role = Role.super_admin)) := by
      rcases hadm with h | h
      · exact fun hc => hc.1 h
      · exact fun hc => hc.2 h
    constructor
    · simp [patchTicketAssignHandler, hcond, hfind]
    · have : (patchTicketAssignHandler db u id a).2 = assignTicketById db id a := by
        simp [patchTicketAssignHandler, hcond, hfind]
      rw [this]
      exact assigneeInDb_assignTicketById db id a t hfind
  · intro hrole
    have hcond : ¬ (u.role = Role.admin) ∧ ¬ (u.role = Role.super_admin) := by
      rw [hrole]
      exact ⟨fun h => Role.noConfusion h, fun h => Role.noConfusion h⟩
    constructor
    · simp [patchTicketAssignHandler, hcond]
    · simp [patchTicketAssignHandler, hcond]

/-- Witness for C4: an admin reassigns ticket 5 to employee `e7`. -/
theorem reassignment_admin_only_witness :
    (patchTicketAssignHandler
        [⟨5, "T5", 1, 2, 1, "printer broken", "low", Status.opened, "u9", some "e1"⟩]
        ⟨"adm", some 3, Role.admin⟩ 5 "e7").1 = AssignResult.ok ∧
    assigneeInDb
        (patchTicketAssignHandler
          [⟨5, "T5", 1, 2, 1, "printer broken", "low", Status.opened, "u9", some "e1"⟩]
          ⟨"adm", some 3, Role.admin⟩ 5 "e7").2 5 = some (some "e7") :=
  (reassignment_admin_only
      [⟨5, "T5", 1, 2, 1, "printer broken", "low", Status.opened, "u9", some "e1"⟩]
      ⟨"adm", some 3, Role.admin⟩ 5 "e7"
      ⟨5, "T5", 1, 2, 1, "printer broken", "low", Status.opened, "u9", some "e1"⟩
      (by decide)).1 (Or.inl rfl)

/-- C5: `POST /tickets/:id/accept` on an existing ticket succeeds and assigns
the ticket to the requester exactly when the ticket is unassigned; on an
already-assigned ticket it answers 409 (`'Ticket already accepted'`) and the
table is unchanged. -/
theorem accept_only_unassigned (db : List Ticket) (u : User) (id : Nat)
    (t : Ticket) (hfind : findTicket db id = some t)
    (hne : t.assigned_to ≠ some "") :
    (t.assigned_to = none →
      (postTicketAcceptHandler db u id).1 = AcceptResult.ok ∧
      assigneeInDb (postTicketAcceptHandler db u id).2 id = some (some u.employee_id)) ∧
    (t.assigned_to ≠ none →
      (postTicketAcceptHandler db u id).1 = AcceptResult.conflict ∧
      (postTicketAcceptHandler db u id).2 = db) := by
  constructor
  · intro hun
    have htr : truthyStr t.assigned_to = false := by rw [hun]; rfl
    constructor
    · simp [postTicketAcceptHandler, hfind, htr]
    · have : (postTicketAcceptHandler db u id).2 = assignTicketById db id u.employee_id := by
        simp [postTicketAcceptHandler, hfind, htr]
      rw [this]
      exact assigneeInDb_assignTicketById db id u.employee_id t hfind
  · intro hun
    cases hass : t.assigned_to with
    | none => exact absurd hass hun
    | some x =>
      have hx : x ≠ "" := fun h => hne (by rw [hass, h])
      have htr : truthyStr t.assigned_to = true := by
        rw [hass]
        simp [truthyStr, hx]
      constructor
      · simp [postTicketAcceptHandler, hfind, htr]
      · simp [postTicketAcceptHandler, hfind, htr]

/-- Witness for C5: accepting an unassigned ticket assigns it to the
requester. -/
theorem accept_only_unassigned_witness :
    (postTicketAcceptHandler
        [⟨5, "T5", 1, 2, 1, "printer broken", "low", Status.opened, "u9", none⟩]
        ⟨"e1", some 2, Role.employee⟩ 5).1 = AcceptResult.ok ∧
    assigneeInDb
        (postTicketAcceptHandler
          [⟨5, "T5", 1, 2, 1, "printer broken", "low", Status.opened, "u9", none⟩]
          ⟨"e1", some 2, Role.employee⟩ 5).2 5 = some (some "e1") :=
  (accept_only_unassigned
      [⟨5, "T5", 1, 2, 1, "printer broken", "low", Status.opened, "u9", none⟩]
      ⟨"e1", some 2, Role.employee⟩ 5
      ⟨5, "T5", 1, 2, 1, "printer broken", "low", Status.opened, "u9", none⟩
      (by decide) (by decide)).1 rfl

theorem canPostTicketMessage_iff (u : User) (t : Ticket)
    (hdep : ∀ d, u.department = some d → 0 < d) :
    canPostTicketMessage u t = true ↔
      (u.role = Role.admin ∨ u.role = Role.super_admin ∨
        u.department = some t.department_id ∨
        u.employee_id = t.created_by ∨ t.assigned_to = some u.employee_id) := by
  cases hd : u.department with
  | none =>
    simp only [canPostTicketMessage, hd, Bool.or_eq_true, decide_eq_true_eq,
      Bool.false_or, reduceCtorEq, false_iff, or_false]
    tauto
  | some d =>
    have hpos : 0 < d := hdep d hd
    have hdz : d ≠ 0 := Nat.pos_iff_ne_zero.mp hpos
    by_cases hteq : t.department_id = d
    · subst hteq
      simp [canPostTicketMessage, hd, hdz]
    · have h2 : ¬ d = t.department_id := fun h => hteq h.symm
      simp [canPostTicketMessage, hd, hteq, h2]
      tauto

/-- C6: posting in a ticket's chat on an existing ticket succeeds (persisting
the sanitized message) exactly when the requester is an admin or super_admin,
shares the ticket's department, created the ticket, or is its assignee;
otherwise it answers 403 and the message table is unchanged.  (`hdep`: session
department ids are positive, as the `AUTO_INCREMENT` department keys are.) -/
theorem chat_post_authorization (db : List Ticket) (msgs : List TicketMessage)
    (u : User) (id : Nat) (body : String) (t : Ticket)
    (hfind : findTicket db id = some t)
    (hdep : ∀ d, u.department = some d → 0 < d) :
    ((u.role = Role.admin ∨ u.role = Role.super_admin ∨
        u.department = some t.department_id ∨
        u.employee_id = t.created_by ∨ t.assigned_to = some u.employee_id) →
      (postTicketMessageHandler db msgs u id body).1 = PostMessageResult.created ∧
      (postTicketMessageHandler db msgs u id body).2 =
        msgs ++ [⟨id, u.employee_id, sanitizeInput body⟩]) ∧
    (¬ (u.role = Role.admin ∨ u.role = Role.super_admin ∨
        u.department = some t.department_id ∨
        u.employee_id = t.created_by ∨ t.assigned_to = some u.employee_id) →
      (postTicketMessageHandler db msgs u id body).1 = PostMessageResult.forbidden ∧
      (postTicketMessageHandler db msgs u id body).2 = msgs) := by
  constructor
  · intro hcond
    have hcan : canPostTicketMessage u t = true :=
      (canPostTicketMessage_iff u t hdep).mpr hcond
    constructor
    · simp [postTicketMessageHandler, hfind, hcan]
    · simp [postTicketMessageHandler, hfind, hcan]
  · intro hcond
    have hcan : canPostTicketMessage u t = false := by
      cases h : canPostTicketMessage u t with
      | false => rfl
      | true => exact absurd ((canPostTicketMessage_iff u t hdep).mp h) hcond
    constructor
    · simp [postTicketMessageHandler, hfind, hcan]
    · simp [postTicketMessageHandler, hfind, hcan]

/-- Witness for C6: the ticket's creator posts in its chat even from another
department. -/
theorem chat_post_authorization_witness :
    (postTicketMessageHandler
        [⟨5, "T5", 1, 2, 1, "printer broken", "low", Status.opened, "u9", none⟩]
        [] ⟨"u9", some 4, Role.employee⟩ 5 "on my way").1 = PostMessageResult.created ∧
    (postTicketMessageHandler
        [⟨5, "T5", 1, 2, 1, "printer broken", "low", Status.opened, "u9", none⟩]
        [] ⟨"u9", some 4, Role.employee⟩ 5 "on my way").2 =
      [⟨5, "u9", sanitizeInput "on my way"⟩] :=
  (chat_post_authorization
      [⟨5, "T5", 1, 2, 1, "printer broken", "low", Status.opened, "u9", none⟩]
      [] ⟨"u9", some 4, Role.employee⟩ 5 "on my way"
      ⟨5, "T5", 1, 2, 1, "printer broken", "low", Status.opened, "u9", none⟩
      (by decide) (by decide)).1
    (Or.inr (Or.inr (Or.inr (Or.inl rfl))))

/-- C9: status transitions form no enforced state machine.
`updateStatusSchema` accepts exactly the four strings `open`, `in_progress`,
`resolved`, `closed`, and for any authorized requester the handler sets any of
the four target statuses on any current status. -/
theorem status_no_state_machine :
    (∀ s : String, (parseStatus s).isSome = true ↔
      (s = "open" ∨ s = "in_progress" ∨ s = "resolved" ∨ s = "closed")) ∧
    (∀ (db : List Ticket) (u : User) (id : Nat) (tgt : Status) (t : Ticket),
      findTicket db id = some t → canUpdateStatus u t = true →
        (patchTicketStatusHandler db u id tgt).1 = StatusUpdateResult.ok ∧
        statusInDb (patchTicketStatusHandler db u id tgt).2 id = some tgt) := by
  constructor
  · intro s
    unfold parseStatus
    split_ifs <;> simp_all
  · intro db u id tgt t hfind hcan
    constructor
    · simp [patchTicketStatusHandler, hfind, hcan]
    · have : (patchTicketStatusHandler db u id tgt).2 = updateTicketStatus db id tgt := by
        simp [patchTicketStatusHandler, hfind, hcan]
      rw [this]
      exact statusInDb_updateTicketStatus db id tgt t hfind

/-- Witness for C9: an admin moves a `closed` ticket straight back to `open`,
a transition no linear state machine would allow. -/
theorem status_no_state_machine_witness :
    (patchTicketStatusHandler
        [⟨5, "T5", 1, 2, 1, "printer broken", "low", Status.closed, "u9", some "e1"⟩]
        ⟨"adm", some 3, Role.admin⟩ 5 Status.opened).1 = StatusUpdateResult.ok ∧
    statusInDb
        (patchTicketStatusHandler
          [⟨5, "T5", 1, 2, 1, "printer broken", "low", Status.closed, "u9", some "e1"⟩]
          ⟨"adm", some 3, Role.admin⟩ 5 Status.opened).2 5 = some Status.opened :=
  status_no_state_machine.2
    [⟨5, "T5", 1, 2, 1, "printer broken", "low", Status.closed, "u9", some "e1"⟩]
    ⟨"adm", some 3, Role.admin⟩ 5 Status.opened
    ⟨5, "T5", 1, 2, 1, "printer broken", "low", Status.closed, "u9", some "e1"⟩
    (by decide) (by decide)

theorem orderMembers_comm (u v : String) : orderMembers u v = orderMembers v u := by
  unfold orderMembers
  rcases lt_trichotomy u v with h | h | h
  · rw [if_pos h, if_neg (asymm h)]
  · subst h
    simp
  · rw [if_neg (asymm h), if_pos h]

theorem findConversation_append (rows1 rows2 : List Conversation) (a b : String) :
    findConversation (rows1 ++ rows2) a b =
      (findConversation rows1 a b).orElse (fun _ => findConversation rows2 a b) := by
  induction rows1 with
  | nil => rfl
  | cons c l ih =>
    by_cases h : c.member_a_id = a ∧ c.member_b_id = b
    · simp [findConversation, List.find?, h]
    · simpa [findConversation, List.find?, h] using ih

/-- The number of conversation rows stored for an ordered member pair. -/
def pairCount (rows : List Conversation) (a b : String) : Nat :=
  (rows.filter (fun c => decide (c.member_a_id = a ∧ c.member_b_id = b))).length

/-- The `UNIQUE KEY uniq_members (member_a_id, member_b_id)` constraint of
`cms_user_conversations`: at most one row per ordered member pair. -/
def conversationKeysUnique (st : ConversationTable) : Prop :=
  ∀ a b : String, pairCount st.rows a b ≤ 1

theorem pairCount_eq_zero_of_find_none (rows : List Conversation) (a b : String)
    (h : findConversation rows a b = none) : pairCount rows a b = 0 := by
  rw [pairCount, List.length_eq_zero]
  rw [findConversation, List.find?_eq_none] at h
  rw [List.filter_eq_nil_iff]
  intro c hc
  simpa using h c hc

/-- C8: `getOrCreateConversation` is symmetric in the two participants (the
pair is stored in canonical order), a repeated call for the same pair returns
the very same conversation without touching the table, and the
one-row-per-pair invariant is preserved. -/
theorem conversation_unordered_pair_unique (st : ConversationTable)
    (u v : String) (d : Option Nat) (hinv : conversationKeysUnique st) :
    getOrCreateConversation st u v d = getOrCreateConversation st v u d ∧
    getOrCreateConversation (getOrCreateConversation st u v d).2 u v d =
      getOrCreateConversation st u v d ∧
    conversationKeysUnique (getOrCreateConversation st u v d).2 := by
  refine ⟨?_, ?_, ?_⟩
  · unfold getOrCreateConversation
    rw [orderMembers_comm]
  · cases hfind :
        findConversation st.rows (orderMembers u v).1 (orderMembers u v).2 with
    | some conv =>
      simp [getOrCreateConversation, hfind]
    | none =>
      have hfind2 :
          findConversation
              (st.rows ++
                [{ id := st.nextId, member_a_id := (orderMembers u v).1,
                   member_b_id := (orderMembers u v).2, dept_id := d }])
              (orderMembers u v).1 (orderMembers u v).2 =
            some { id := st.nextId, member_a_id := (orderMembers u v).1,
                   member_b_id := (orderMembers u v).2, dept_id := d } := by
        rw [findConversation_append, hfind]
        simp [findConversation, List.find?]
      simp [getOrCreateConversation, hfind, hfind2]
  · cases hfind :
        findConversation st.rows (orderMembers u v).1 (orderMembers u v).2 with
    | some conv =>
      simpa [getOrCreateConversation, hfind] using hinv
    | none =>
      intro a b
      have hrows : (getOrCreateConversation st u v d).2.rows =
          st.rows ++
            [{ id := st.nextId, member_a_id := (orderMembers u v).1,
               member_b_id := (orderMembers u v).2, dept_id := d }] := by
        simp [getOrCreateConversation, hfind]
      rw [hrows, pairCount, List.filter_append, List.length_append]
      by_cases hkey : (orderMembers u v).1 = a ∧ (orderMembers u v).2 = b
      · have hz : pairCount st.rows a b = 0 := by
          apply pairCount_eq_zero_of_find_none
          rw [← hkey.1, ← hkey.2]
          exact hfind
        rw [pairCount] at hz
        rw [hz]
        simp [hkey.1, hkey.2]
      · have : pairCount st.rows a b ≤ 1 := hinv a b
        rw [pairCount] at this
        have hone :
            (List.filter
              (fun c : Conversation => decide (c.member_a_id = a ∧ c.member_b_id = b))
              ([{ id := st.nextId, member_a_id := (orderMembers u v).1,
                  member_b_id := (orderMembers u v).2, dept_id := d }] :
                List Conversation)).length = 0 := by
          rcases not_and_or.mp hkey with h | h <;> simp [List.filter, h]
        omega

/-- Witness for C8: starting from an empty table, the pair (`alice`, `bob`) in
either order yields one and the same conversation. -/
theorem conversation_unordered_pair_unique_witness :
    getOrCreateConversation ⟨[], 0⟩ "alice" "bob" none =
      getOrCreateConversation ⟨[], 0⟩ "bob" "alice" none ∧
    getOrCreateConversation (getOrCreateConversation ⟨[], 0⟩ "alice" "bob" none).2
        "alice" "bob" none =
      getOrCreateConversation ⟨[], 0⟩ "alice" "bob" none ∧
    conversationKeysUnique (getOrCreateConversation ⟨[], 0⟩ "alice" "bob" none).2 :=
  conversation_unordered_pair_unique ⟨[], 0⟩ "alice" "bob" none
    (fun a b => by simp [pairCount])

/-- C2 (amended): the sanitizer is applied to ticket chat messages, to
company, department and target-system names, and to ticket subject and
description; but direct-message conversation text is persisted merely
whitespace-trimmed, meeting title and description are persisted exactly as
submitted, and the plain-text admin-notification email interpolates the
ticket subject verbatim, unescaped. -/
theorem sanitization_coverage :
    (∀ (db : List Ticket) (msgs : List TicketMessage) (u : User) (id : Nat)
        (body : String) (t : Ticket),
      findTicket db id = some t → canPostTicketMessage u t = true →
        (postTicketMessageHandler db msgs u id body).2 =
          msgs ++ [⟨id, u.employee_id, sanitizeInput body⟩]) ∧
    (∀ (names : List String) (name : String), name ≠ "" →
      postCompanyHandler names name = some (names ++ [sanitizeInput name])) ∧
    (∀ (names : List String) (name : String), name ≠ "" →
      postDepartmentHandler names name = some (names ++ [sanitizeInput name])) ∧
    (∀ (names : List (String × Nat)) (name : String) (dep : Nat),
      name ≠ "" → dep ≠ 0 →
      postTargetSystemHandler names name dep =
        some (names ++ [(sanitizeInput name, dep)])) ∧
    (∀ body : CreateTicketBody,
      (normalizeCreateTicket body).subject = sanitizeInput body.subject ∧
      (normalizeCreateTicket body).description = sanitizeInput body.description) ∧
    (∀ (msgs : List ConversationMessage) (u : User) (convId : Nat) (body : String),
      jsTrim body ≠ "" →
        (postConversationMessageHandler msgs u convId body).2 =
          msgs ++ [⟨convId, u.employee_id, jsTrim body⟩]) ∧
    (∀ (ms : List Meeting) (nid : Nat) (u : User) (b : MeetingBody) (descr : String),
      b.title ≠ "" → b.date ≠ "" → b.time ≠ "" →
      b.description = some descr → descr ≠ "" →
        postMeetingHandler ms nid u b =
          some (ms ++ [⟨nid, b.title, b.date, b.time, some descr, u.employee_id⟩])) ∧
    (∀ (tn : String) (dep : Nat) (p subj : String), ∃ head : String,
      newTicketAdminNotificationText tn dep p subj = head ++ subj) := by
  refine ⟨?_, ?_, ?_, ?_, ?_, ?_, ?_, ?_⟩
  · intro db msgs u id body t hfind hcan
    simp [postTicketMessageHandler, hfind, hcan]
  · intro names name h
    simp [postCompanyHandler, h]
  · intro names name h
    simp [postDepartmentHandler, h]
  · intro names name dep h hd
    simp [postTargetSystemHandler, h, hd]
  · intro body
    exact ⟨rfl, rfl⟩
  · intro msgs u convId body h
    simp [postConversationMessageHandler, h, addConversationMessage]
  · intro ms nid u b descr ht hd htime hdesc hne
    simp [postMeetingHandler, ht, hd, htime, hdesc, hne]
  · intro tn dep p subj
    exact ⟨"Ticket " ++ tn ++ " created in department " ++ toString dep ++
      "\nPriority: " ++ p ++ "\nSubject: ", rfl⟩

/-- Witness for the amended C2: a trimmed-but-unsanitized conversation
message and a sanitized company name. -/
theorem sanitization_coverage_witness :
    (postConversationMessageHandler [] ⟨"u1", some 1, Role.employee⟩ 7 " hello ").2 =
      [⟨7, "u1", jsTrim " hello "⟩] ∧
    postCompanyHandler [] "Acme <i>Inc</i>" = some [sanitizeInput "Acme <i>Inc</i>"] :=
  ⟨sanitization_coverage.2.2.2.2.2.1 [] ⟨"u1", some 1, Role.employee⟩ 7 " hello "
      (by decide),
    sanitization_coverage.2.1 [] "Acme <i>Inc</i>" (by decide)⟩

end Helpdesk
